import Mathlib

/-!
Verification development for the HBIU university portal's curriculum
progress and exam-unlock engine (`app.py`, `database.py`).

The definitions below are a shallow embedding of the Python source:
pure computations become Lean functions, the relational store becomes an
explicit record of row lists, and fallible persistence is modelled by an
explicit query outcome (`Except`) or a fault flag threaded through the
state.  Machine arithmetic: the progress percentage in
`learning_interface` is computed with Python floats
(`int((completed_items / total_items) * 100)`), so we model IEEE-754
binary64 round-to-nearest-even arithmetic exactly.
-/

namespace Portal

/-! ## Exact model of IEEE-754 binary64 arithmetic on nonnegative rationals

Python's `int / int` true division yields the binary64 float nearest to
the exact quotient (CPython guarantees a correctly rounded result), and
`float * int` yields the float nearest to the exact product; ties go to
the even significand.  We represent a nonnegative rational as a
numerator/denominator pair of naturals (not necessarily reduced), and
rounding to binary64 as an exact operation on such pairs.  The model
covers the whole finite nonnegative range, subnormals included
(exponent clamped at -1022); overflow cannot occur for the values that
arise here (all results are ≤ 100). -/

/-- Fuelled floor of log₂ on naturals (structural recursion, so the
kernel can evaluate it inside `decide`). -/
def nlog2F : Nat → Nat → Nat
  | 0, _ => 0
  | fuel + 1, n => if 2 ≤ n then nlog2F fuel (n / 2) + 1 else 0

/-- Floor of log₂ on naturals: `natLog2 n = ⌊log₂ n⌋` for `n ≥ 1`. -/
def natLog2 (n : Nat) : Nat := nlog2F n n

/-- Fuelled ceiling of log₂ on naturals. -/
def nclog2F : Nat → Nat → Nat
  | 0, _ => 0
  | fuel + 1, n => if 2 ≤ n then nclog2F fuel ((n + 1) / 2) + 1 else 0

/-- Ceiling of log₂ on naturals: `natClog2 n = ⌈log₂ n⌉` for `n ≥ 1`. -/
def natClog2 (n : Nat) : Nat := nclog2F n n

/-- Binade exponent of the positive rational `n / d`: the `e` with
`2 ^ e ≤ n / d < 2 ^ (e + 1)`. -/
def fracLog2 (n d : Nat) : Int :=
  if d ≤ n then (natLog2 (n / d) : Int) else -(natClog2 ((d + n - 1) / n) : Int)

/-- Round the nonnegative rational `n / d` to the nearest integer, ties
to even (the IEEE-754 default rounding). -/
def roundHalfEvenDiv (n d : Nat) : Nat :=
  let f := n / d
  let r2 := 2 * (n % d)
  if r2 < d then f
  else if d < r2 then f + 1
  else if f % 2 = 0 then f else f + 1

/-- Round the nonnegative rational `n / d` (with `d ≠ 0`) to the nearest
binary64 value, exactly, returned as a numerator/denominator pair: the
representable grid has spacing `2 ^ (e - 52)` in the binade of exponent
`e`, clamped at the subnormal exponent `-1022`. -/
def roundB64F (n d : Nat) : Nat × Nat :=
  if n = 0 then (0, 1)
  else
    let k : Int := max (fracLog2 n d) (-1022) - 52
    if 0 ≤ k then (roundHalfEvenDiv n (d * 2 ^ k.toNat) * 2 ^ k.toNat, 1)
    else (roundHalfEvenDiv (n * 2 ^ (-k).toNat) d, 2 ^ (-k).toNat)

/-- The progress percentage computed at `app.py:765`:
`int((completed_items / total_items) * 100) if total_items else 0`.
`completed_items / total_items` is Python float division of two ints
(round-to-nearest binary64 of the exact ratio), `* 100` is a float
multiplication (a second rounding), and `int()` truncates toward zero,
which is the floor since the operand is nonnegative. -/
def progress_percentage (completed total : Nat) : Nat :=
  if total = 0 then 0
  else
    let x := roundB64F completed total
    let y := roundB64F (x.1 * 100) x.2
    y.1 / y.2

/-! ## Data model

Row shapes mirror the tables created by `create_learning_tables`
(`database.py:40-178`) and the dictionaries the accessors build from
them.  Only the columns the embedded code reads are carried. -/

/-- An entry of the per-student progress dictionary built by
`get_student_progress` (`item_id -> completed`). -/
abbrev PMap := List (Int × Bool)

/-- Dictionary lookup with Python's `dict.get(key, False)` / truthiness
semantics: an absent key reads as `false`. -/
def pmGet (pm : PMap) (i : Int) : Bool := (pm.lookup i).getD false

/-- Python `dict` assignment `d[k] = v`: overwrite in place if the key
exists, else append. -/
def pmSet (pm : PMap) (k : Int) (v : Bool) : PMap :=
  if pm.any (fun kv => kv.1 == k) then
    pm.map (fun kv => if kv.1 == k then (k, v) else kv)
  else pm ++ [(k, v)]

/-- A `chapter_items` row as read by the learning interface; the loops
only read `id` and `type` (`order_index` is the sort key, and the SQL in
`get_chapter_items` already returns rows ordered by it, so the
stable re-sort at `app.py:729` is the identity). -/
structure Item where
  id : Int
  type : String
  orderIndex : Int
deriving DecidableEq, Repr

/-- A chapter together with its items, as assembled by
`learning_interface` / `exam_landing` (`ch['items'] = items`). -/
structure ChapterView where
  id : Int
  items : List Item
deriving DecidableEq, Repr

/-- A `student_progress` row. -/
structure ProgressRow where
  student : Nat
  unit : Nat
  item : Int
  completed : Bool
deriving DecidableEq, Repr

/-- An `exams` row, with exactly the nine columns that
`get_exam_by_unit` copies into its result dictionary
(`database.py:1804-1814`). -/
structure ExamRow where
  id : Nat
  unitId : Nat
  title : String
  description : String
  durationMinutes : Int
  totalMarks : Int
  passMarks : Int
  unlockAfterCount : Int
  isPublished : Bool
deriving DecidableEq, Repr

/-- An `exam_questions` row (`database.py:127-137`). -/
structure QuestionRow where
  id : Nat
  examId : Nat
  questionText : String
  type : String
  points : Int
  orderIndex : Int
deriving DecidableEq, Repr

/-- An `exam_options` row (`database.py:139-146`): the correct-answer
key for objective questions lives here as `is_correct` flags. -/
structure OptionRow where
  questionId : Nat
  optionText : String
  isCorrect : Bool
deriving DecidableEq, Repr

/-- An `exam_attempts` row (`database.py:149-164`).  The table has no
uniqueness constraint on `(exam_id, student_id)` — only the non-unique
index `idx_attempt_exam_student`. -/
structure AttemptRow where
  examId : Nat
  studentId : Nat
  score : Int
  status : String
  answersJson : List (String × String)
deriving DecidableEq, Repr

/-- A `chapters` row. -/
structure ChapterRow where
  id : Int
  unitId : Nat
  title : String
  orderIndex : Int
deriving DecidableEq, Repr

/-- The persistent store, as row lists per table, plus a fault flag
`insertFails` modelling the environment condition in which an INSERT
raises (connection loss etc.), which the Python code catches.
`examItems` stands for the exam-typed `Item` rows created by the
spec-modelled `create_exam` below. -/
structure LearnDB where
  units : List Nat
  chapters : List ChapterRow
  lessons : List Nat
  progress : List ProgressRow
  exams : List ExamRow
  questions : List QuestionRow
  options : List OptionRow
  attempts : List AttemptRow
  examItems : List Nat
  insertFails : Bool
deriving DecidableEq, Repr

/-- The Flask session fields the routes read. -/
structure Session where
  userId : Option Nat
  userType : Option String
deriving DecidableEq, Repr

/-- `'user_id' in session and session.get('user_type') == 'student'`. -/
def isStudentSession (s : Session) : Bool :=
  s.userId.isSome && (s.userType == some "student")

/-- `'user_id' in session and session.get('user_type') in ['lecturer', 'admin']`. -/
def isStaffSession (s : Session) : Bool :=
  s.userId.isSome && (s.userType == some "lecturer" || s.userType == some "admin")

/-! ## Curriculum store accessor and progress tracker (`database.py`) -/

/-- `get_unit_chapters` (`database.py:448-478`): returns the queried
rows; any exception is caught, printed, and turned into `[]`. -/
def get_unit_chapters (q : Except String (List ChapterRow)) : List ChapterRow :=
  match q with
  | .ok rows => rows
  | .error _ => []

/-- `get_exam_questions` (`database.py:1822-1836`): returns the queried
rows; any exception is caught, printed, and turned into `[]`. -/
def get_exam_questions (q : Except String (List QuestionRow)) : List QuestionRow :=
  match q with
  | .ok rows => rows
  | .error _ => []

/-- The rows the `get_student_progress` query returns on success:
`SELECT item_id, completed FROM student_progress WHERE student_id = ?
AND unit_id = ?`. -/
def progressQuery (db : LearnDB) (student unit : Nat) : List ProgressRow :=
  db.progress.filter (fun r => r.student == student && r.unit == unit)

/-- `get_student_progress` (`database.py:497-518`): builds the
`item_id -> completed` dictionary from the query result; any exception
is caught, printed, and turned into `{}`. -/
def get_student_progress (q : Except String (List ProgressRow)) : PMap :=
  match q with
  | .ok rows => rows.foldl (fun d r => pmSet d r.item r.completed) []
  | .error _ => []

/-- `update_student_progress` (`database.py:520-544`): an upsert keyed
by the `UNIQUE(student_id, unit_id, item_id)` constraint
(`database.py:91`) — `INSERT OR REPLACE` / `ON CONFLICT DO UPDATE`
replaces the existing row for the key.  Returns `True` on success and
`False` when the write raises (caught and printed). -/
def update_student_progress (db : LearnDB) (student unit : Nat) (item : Int)
    (completed : Bool) : LearnDB × Bool :=
  if db.insertFails then (db, false)
  else
    ({ db with progress :=
        (db.progress.filter
          (fun r => !(r.student == student && r.unit == unit && r.item == item)))
          ++ [⟨student, unit, item, completed⟩] },
     true)

/-! ## Learning interface statistics (`app.py:704-780`) -/

/-- The four counters the `learning_interface` chapter loop maintains. -/
structure LearnStats where
  totalItems : Nat
  completedItems : Nat
  completedChapters : Nat
  hasExamItem : Bool
deriving DecidableEq, Repr

/-- One iteration of the inner item loop (`app.py:734-743`); the `Bool`
component is the per-chapter `chapter_completed` flag.  An exam-typed
item only sets `has_exam_item`; any other item increments
`total_items`, and either increments `completed_items` or clears
`chapter_completed`. -/
def stepItem (pm : PMap) (s : LearnStats × Bool) (it : Item) : LearnStats × Bool :=
  if it.type == "exam" then ({ s.1 with hasExamItem := true }, s.2)
  else if pmGet pm it.id then
    ({ s.1 with totalItems := s.1.totalItems + 1,
                completedItems := s.1.completedItems + 1 }, s.2)
  else ({ s.1 with totalItems := s.1.totalItems + 1 }, false)

/-- One iteration of the chapter loop (`app.py:727-749`):
`if chapter_completed and len(items) > 0: completed_chapters += 1`. -/
def stepChapter (pm : PMap) (s : LearnStats) (ch : ChapterView) : LearnStats :=
  let r := ch.items.foldl (stepItem pm) (s, true)
  if r.2 && !ch.items.isEmpty then
    { r.1 with completedChapters := r.1.completedChapters + 1 }
  else r.1

/-- The statistics `learning_interface` computes over all chapters
(initial counters all zero, `has_exam_item = False`). -/
def learnStats (pm : PMap) (chapters : List ChapterView) : LearnStats :=
  chapters.foldl (stepChapter pm) ⟨0, 0, 0, false⟩

/-- The chapter predicate under which the `learning_interface` loop
counts a chapter as completed: all its non-exam items are completed
(exam items are skipped by the loop) and it has at least one item. -/
def codeChapterDone (pm : PMap) (ch : ChapterView) : Bool :=
  ch.items.all (fun it => (it.type == "exam") || pmGet pm it.id) && !ch.items.isEmpty

/-- `progress_percentage` as computed at `app.py:765` from the loop's
counters. -/
def learn_progress_percentage (pm : PMap) (chapters : List ChapterView) : Nat :=
  progress_percentage (learnStats pm chapters).completedItems
    (learnStats pm chapters).totalItems

/-- `exam_unlocked = (is_student and progress_percentage == 100)`
(`app.py:768`). -/
def learn_exam_unlocked (isStudent : Bool) (pm : PMap)
    (chapters : List ChapterView) : Bool :=
  isStudent && (learn_progress_percentage pm chapters == 100)

/-! ## Exam landing gate (`app.py:1195-1218`) -/

/-- `total = sum(1 for ch in chapters for it in ch['items'] if
it.get('type') != 'exam')` (`app.py:1214`). -/
def landing_total (chapters : List ChapterView) : Nat :=
  (chapters.flatMap (fun ch => ch.items)).countP (fun it => !(it.type == "exam"))

/-- `done = sum(1 for ch in chapters for it in ch['items'] if
it.get('type') != 'exam' and progress_map.get(it['id']))`
(`app.py:1215`). -/
def landing_done (pm : PMap) (chapters : List ChapterView) : Nat :=
  (chapters.flatMap (fun ch => ch.items)).countP
    (fun it => !(it.type == "exam") && pmGet pm it.id)

/-- `unlocked = (total > 0 and done == total)` (`app.py:1216`). -/
def landing_unlocked (pm : PMap) (chapters : List ChapterView) : Bool :=
  decide (0 < landing_total chapters) && (landing_done pm chapters == landing_total chapters)

/-! ## Exam fetch, grading and submission (`database.py:1794-1861`, `app.py:1238-1264`) -/

/-- `get_exam_by_unit` (`database.py:1794-1820`): `fetchone` on
`SELECT * FROM exams WHERE unit_id = ?`, packed into a dictionary with
the nine keys listed in `ExamRow`. -/
def get_exam_by_unit (db : LearnDB) (unitId : Nat) : Option ExamRow :=
  (db.exams.filter (fun e => e.unitId == unitId)).head?

/-- A value of the exam dictionary `get_exam_by_unit` returns. -/
inductive Val where
  | int (i : Int)
  | str (s : String)
  | bool (b : Bool)
deriving DecidableEq, Repr

/-- The exact dictionary literal `get_exam_by_unit` builds
(`database.py:1804-1814`): nine keys, none of them `item_id`. -/
def examDict (e : ExamRow) : List (String × Val) :=
  [("id", .int e.id), ("unit_id", .int e.unitId), ("title", .str e.title),
   ("description", .str e.description), ("duration_minutes", .int e.durationMinutes),
   ("total_marks", .int e.totalMarks), ("pass_marks", .int e.passMarks),
   ("unlock_after_count", .int e.unlockAfterCount), ("is_published", .bool e.isPublished)]

/-- `save_exam_attempt_and_score` (`database.py:1838-1861`): the score
is hardcoded (`score = 50; total_marks = 100`), the `answers` argument
is only serialized into the inserted row, the insert is a plain
`INSERT` (no upsert), and an insert failure is caught, printed, and
mapped to the return value `(0, 100)`. -/
def save_exam_attempt_and_score (db : LearnDB) (examId studentId : Nat)
    (answers : List (String × String)) : LearnDB × Nat × Nat :=
  if db.insertFails then (db, 0, 100)
  else
    ({ db with attempts := db.attempts ++ [⟨examId, studentId, 50, "submitted", answers⟩] },
     50, 100)

/-- The answer map `exam_submit` collects (`app.py:1250-1254`): form
fields whose key starts with `q_`, keyed by the part after the first
underscore (i.e. the key minus its first two characters). -/
def collectAnswers (form : List (String × String)) : List (String × String) :=
  form.filterMap (fun kv => if kv.1.startsWith "q_" then some (kv.1.drop 2, kv.2) else none)

/-- What the `exam_submit` route renders. -/
inductive SubmitOutcome where
  | loginRedirect
  | unavailableRedirect
  | resultPage (score total : Nat)
deriving DecidableEq, Repr

/-- The `exam_submit` route (`app.py:1238-1264`).  After persisting the
attempt it runs `db.update_student_progress(session['user_id'],
unit_id, exam['item_id'], True)` inside `try/except`; the dictionary
from `get_exam_by_unit` has no `item_id` key, so the subscript is
modelled as a lookup whose `none` case is the caught-and-printed
`KeyError` (progress untouched). -/
def exam_submit (db : LearnDB) (sess : Session) (unitId : Nat)
    (form : List (String × String)) : LearnDB × SubmitOutcome :=
  match sess.userId, sess.userType with
  | some sid, some "student" =>
    if !db.units.contains unitId then (db, .unavailableRedirect)
    else
      match get_exam_by_unit db unitId with
      | none => (db, .unavailableRedirect)
      | some exam =>
        let answers := collectAnswers form
        let r := save_exam_attempt_and_score db exam.id sid answers
        let db2 :=
          match (examDict exam).lookup "item_id" with
          | some (.int itemId) => (update_student_progress r.1 sid unitId itemId true).1
          | _ => r.1
        (db2, .resultPage r.2.1 r.2.2)
  | _, _ => (db, .loginRedirect)

/-! ## Exam creation (`app.py:1030-1066`, `app.py:1148-1192`) -/

/-- Modelled from the spec: `db.create_exam` is called from both
creation routes in `app.py` but is not defined anywhere under `src/`.
Per the spec (§6: "exam creation inserts an Item and an Exam row
together" as a transactional all-or-nothing write; §3 for the Exam
fields), it appends one Exam row and one exam-typed Item row and
returns `(exam_id, exam_item_id)`. -/
def create_exam (db : LearnDB) (unitId : Nat) (title instructions : String)
    (duration totalMarks : Int) (_createdBy : Nat) : LearnDB × Nat × Nat :=
  let examId := db.exams.length + 1
  let itemId := db.examItems.length + 1
  ({ db with
      exams := db.exams ++ [⟨examId, unitId, title, instructions, duration, totalMarks, 0, 10, false⟩],
      examItems := db.examItems ++ [itemId] },
   examId, itemId)

/-- Modelled from the spec: `db.add_exam_questions` is called from both
creation routes in `app.py` but is not defined anywhere under `src/`.
Per the spec (§3 ExamQuestion), it inserts the given question rows. -/
def add_exam_questions (db : LearnDB) (_examId : Nat) (qs : List QuestionRow) : LearnDB :=
  { db with questions := db.questions ++ qs }

/-- `count_lessons_in_unit` (`database.py:1776-1790`):
`SELECT COUNT(*) FROM lessons WHERE unit_id = ?`. -/
def count_lessons_in_unit (db : LearnDB) (unitId : Nat) : Nat :=
  (db.lessons.filter (fun u => u == unitId)).length

/-- What `api_create_exam` responds. -/
inductive ApiOutcome where
  | unauthorized
  | okCreated (examId : Nat)
deriving DecidableEq, Repr

/-- The `POST /api/unit/<id>/exam` route (`app.py:1030-1066`).  Note:
it performs no content-threshold check of any kind — it calls
`db.create_exam` directly (the 10-chapter check at `app.py:1022-1024`
only computes a flag for rendering the `add_exam.html` page). -/
def api_create_exam (db : LearnDB) (sess : Session) (unitId : Nat)
    (title instructions : String) (duration totalMarks : Int)
    (qs : List QuestionRow) : LearnDB × ApiOutcome :=
  if !isStaffSession sess then (db, .unauthorized)
  else
    let r := create_exam db unitId title instructions duration totalMarks (sess.userId.getD 0)
    let db2 := if r.2.1 != 0 && !qs.isEmpty then add_exam_questions r.1 r.2.1 qs else r.1
    (db2, .okCreated r.2.1)

/-- What the `exam_create` form route responds to a POST. -/
inductive CreateOutcome where
  | loginRedirect
  | homeRedirect
  | preconditionRedirect
  | successRedirect (examId : Nat)
deriving DecidableEq, Repr

/-- The POST branch of `/unit/<id>/exam/create` (`app.py:1148-1192`):
requires lecturer/admin, an existing unit, and
`can_create = (count_lessons_in_unit(unit_id) >= 10)`; below the
threshold it flashes a warning and redirects without touching the
store. -/
def exam_create (db : LearnDB) (sess : Session) (unitId : Nat)
    (title instructions : String) (duration totalMarks : Int)
    (qs : List QuestionRow) : LearnDB × CreateOutcome :=
  if !isStaffSession sess then (db, .loginRedirect)
  else if !db.units.contains unitId then (db, .homeRedirect)
  else if !(decide (10 ≤ count_lessons_in_unit db unitId)) then (db, .preconditionRedirect)
  else
    let r := create_exam db unitId title instructions duration totalMarks (sess.userId.getD 0)
    let db2 := if !qs.isEmpty then add_exam_questions r.1 r.2.1 qs else r.1
    (db2, .successRedirect r.2.1)

/-! ## Reference predicates taken from the claim wording (for
refinement comparison only — not translated from the source) -/

/-- The completed-chapters count as claim C7 words it: chapters that
have at least one item and in which every item, of every type, is
completed. -/
def claimCompletedChapters (pm : PMap) (chapters : List ChapterView) : Nat :=
  chapters.countP (fun ch => !ch.items.isEmpty && ch.items.all (fun it => pmGet pm it.id))

/-! ## Concrete inputs used by the counterexamples and witnesses -/

/-- A completed lesson item (progress id 1). -/
def lessonDone : Item := ⟨1, "lesson", 0⟩

/-- An uncompleted lesson item (progress id 2). -/
def lessonTodo : Item := ⟨2, "lesson", 0⟩

/-- A unit with one chapter holding `2^54 - 1` completed lessons and
one uncompleted lesson: `completed/total = (2^54 - 1)/2^54`, which
rounds to exactly `1.0` in binary64. -/
def giantChapter : ChapterView := ⟨1, List.replicate (2 ^ 54 - 1) lessonDone ++ [lessonTodo]⟩

/-- Progress map marking item 1 (and nothing else) completed. -/
def giantPM : PMap := [(1, true)]

/-- A chapter whose only item is an uncompleted exam item. -/
def examOnlyChapter : ChapterView := ⟨1, [⟨10, "exam", 0⟩]⟩

/-- The store for the grading scenario of claim C1: one exam (id 1) on
unit 1 with two 5-point `mcq` questions whose correct options are `A`
(question 1) and `B` (question 2); persistence healthy. -/
def scenarioCDB : LearnDB :=
  { units := [1]
    chapters := []
    lessons := []
    progress := []
    exams := [⟨1, 1, "Final Examination", "", 60, 10, 0, 10, true⟩]
    questions := [⟨1, 1, "Q1", "mcq", 5, 1⟩, ⟨2, 1, "Q2", "mcq", 5, 2⟩]
    options := [⟨1, "A", true⟩, ⟨1, "B", false⟩, ⟨2, "A", false⟩, ⟨2, "B", true⟩]
    attempts := []
    examItems := []
    insertFails := false }

/-- `scenarioCDB` with the failing persistence environment. -/
def scenarioCDBFail : LearnDB := { scenarioCDB with insertFails := true }

/-- A logged-in student session (user 7). -/
def studentSess : Session := ⟨some 7, some "student"⟩

/-- A logged-in lecturer session (user 3). -/
def lecturerSess : Session := ⟨some 3, some "lecturer"⟩

/-- A store whose unit 1 has 3 chapters and 3 lessons — below both
observed creation thresholds — and no exam. -/
def thinUnitDB : LearnDB :=
  { units := [1]
    chapters := [⟨1, 1, "C1", 1⟩, ⟨2, 1, "C2", 2⟩, ⟨3, 1, "C3", 3⟩]
    lessons := [1, 1, 1]
    progress := []
    exams := []
    questions := []
    options := []
    attempts := []
    examItems := []
    insertFails := false }

/-! ## Structural lemmas about the embedded code -/

/-- Counting over a replicated list. -/
theorem countP_replicate (p : Item → Bool) (a : Item) :
    ∀ n, (List.replicate n a).countP p = if p a then n else 0 := by
  intro n
  induction n with
  | zero => simp
  | succ m ih =>
    rw [List.replicate_succ, List.countP_cons, ih]
    by_cases h : p a <;> simp [h]

/-- Closed form of the `learning_interface` inner item loop: totals and
completion counters grow by the non-exam counts, `completed_chapters`
is untouched, `has_exam_item` and `chapter_completed` aggregate the
item predicates. -/
theorem foldl_stepItem (pm : PMap) (items : List Item) (s : LearnStats) (b : Bool) :
    items.foldl (stepItem pm) (s, b) =
      ({ totalItems := s.totalItems + items.countP (fun it => !(it.type == "exam")),
         completedItems :=
           s.completedItems + items.countP (fun it => !(it.type == "exam") && pmGet pm it.id),
         completedChapters := s.completedChapters,
         hasExamItem := s.hasExamItem || items.any (fun it => it.type == "exam") },
       b && items.all (fun it => (it.type == "exam") || pmGet pm it.id)) := by
  induction items generalizing s b with
  | nil => simp
  | cons it rest ih =>
    rw [List.foldl_cons]
    by_cases hex : it.type == "exam"
    · rw [show stepItem pm (s, b) it = ({ s with hasExamItem := true }, b) by
        simp [stepItem, hex]]
      rw [ih]
      simp [hex, Bool.or_assoc]
    · by_cases hdone : pmGet pm it.id
      · rw [show stepItem pm (s, b) it =
            ({ s with totalItems := s.totalItems + 1,
                      completedItems := s.completedItems + 1 }, b) by
          simp [stepItem, hex, hdone]]
        rw [ih]
        simp +arith [hex, hdone]
      · rw [show stepItem pm (s, b) it =
            ({ s with totalItems := s.totalItems + 1 }, false) by
          simp [stepItem, hex, hdone]]
        rw [ih]
        simp +arith [hex, hdone]

/-- Closed form of the `learning_interface` chapter loop. -/
theorem foldl_stepChapter (pm : PMap) (chapters : List ChapterView) (s : LearnStats) :
    chapters.foldl (stepChapter pm) s =
      { totalItems := s.totalItems + landing_total chapters,
        completedItems := s.completedItems + landing_done pm chapters,
        completedChapters := s.completedChapters + chapters.countP (codeChapterDone pm),
        hasExamItem :=
          s.hasExamItem || chapters.any (fun ch => ch.items.any (fun it => it.type == "exam")) } := by
  induction chapters generalizing s with
  | nil => simp [landing_total, landing_done]
  | cons ch rest ih =>
    rw [List.foldl_cons, ih]
    have hstep : stepChapter pm s ch =
        if codeChapterDone pm ch then
          { totalItems := s.totalItems + ch.items.countP (fun it => !(it.type == "exam")),
            completedItems :=
              s.completedItems + ch.items.countP (fun it => !(it.type == "exam") && pmGet pm it.id),
            completedChapters := s.completedChapters + 1,
            hasExamItem := s.hasExamItem || ch.items.any (fun it => it.type == "exam") }
        else
          { totalItems := s.totalItems + ch.items.countP (fun it => !(it.type == "exam")),
            completedItems :=
              s.completedItems + ch.items.countP (fun it => !(it.type == "exam") && pmGet pm it.id),
            completedChapters := s.completedChapters,
            hasExamItem := s.hasExamItem || ch.items.any (fun it => it.type == "exam") } := by
      by_cases h : codeChapterDone pm ch
      · rw [if_pos h, stepChapter, foldl_stepItem]
        rw [codeChapterDone] at h
        simp [h]
      · rw [if_neg h, stepChapter, foldl_stepItem]
        rw [codeChapterDone] at h
        simp [h]
    rw [hstep]
    have hlt : landing_total (ch :: rest) =
        ch.items.countP (fun it => !(it.type == "exam")) + landing_total rest := by
      simp [landing_total, List.countP_append]
    have hld : landing_done pm (ch :: rest) =
        ch.items.countP (fun it => !(it.type == "exam") && pmGet pm it.id) + landing_done pm rest := by
      simp [landing_done, List.countP_append]
    by_cases h : codeChapterDone pm ch
    · simp +arith [h, hlt, hld, List.countP_cons, Bool.or_assoc]
    · simp +arith [h, hlt, hld, List.countP_cons, Bool.or_assoc]

/-- The `learning_interface` counters in closed form. -/
theorem learnStats_eq (pm : PMap) (chapters : List ChapterView) :
    learnStats pm chapters =
      { totalItems := landing_total chapters,
        completedItems := landing_done pm chapters,
        completedChapters := chapters.countP (codeChapterDone pm),
        hasExamItem := chapters.any (fun ch => ch.items.any (fun it => it.type == "exam")) } := by
  rw [learnStats, foldl_stepChapter]
  simp

/-- Rounding `t / t` for `t ≠ 0`: binary64 division of a number by
itself is exactly 1 (here as the unreduced dyadic `2^52 / 2^52`). -/
theorem roundB64F_self (t : Nat) (ht : t ≠ 0) : roundB64F t t = (2 ^ 52, 2 ^ 52) := by
  have hpos : 0 < t := Nat.pos_of_ne_zero ht
  have h1 : t / t = 1 := Nat.div_self hpos
  have h2 : t * 2 ^ 52 / t = 2 ^ 52 := Nat.mul_div_cancel_left _ hpos
  have h3 : t * 2 ^ 52 % t = 0 := Nat.mul_mod_right _ _
  rw [roundB64F, if_neg ht, fracLog2, if_pos (Nat.le_refl t), h1]
  norm_num [natLog2, nlog2F, roundHalfEvenDiv, h2, h3, hpos]
  decide

/-- The computed percentage at full completion: for any `t ≠ 0`,
`int((t / t) * 100) = 100` exactly (no rounding error on this path). -/
theorem progress_percentage_self (t : Nat) (ht : t ≠ 0) :
    progress_percentage t t = 100 := by
  rw [progress_percentage, if_neg ht, roundB64F_self t ht]
  decide

/-- The dictionary `get_exam_by_unit` returns has no `item_id` key. -/
theorem examDict_lookup_item_id (e : ExamRow) : (examDict e).lookup "item_id" = none := by
  rfl

/-- Updating the same progress triple twice leaves the second call a
no-op at store level: the upsert replaces the row it just wrote. -/
theorem update_student_progress_idem (db : LearnDB) (student unit : Nat) (item : Int)
    (c : Bool) :
    (update_student_progress (update_student_progress db student unit item c).1
        student unit item c).1
      = (update_student_progress db student unit item c).1 := by
  by_cases h : db.insertFails
  · simp [update_student_progress, h]
  · simp only [update_student_progress, h, if_false, Bool.false_eq_true]
    simp only [List.filter_append, List.filter_filter]
    simp

/- ======================= Claim C3 ======================= -/

/-- Claim C3 counterexample: with 29 of 100 items completed the code
computes 28 — `(29/100)*100` is `28.999999999999996` in binary64 and
`int()` truncates — while the exact integer floor of `100*29/100` is
29.  So the computed percentage is not the exact floor. -/
theorem c3_percentage_not_exact_floor :
    progress_percentage 29 100 = 28 ∧ 100 * 29 / 100 = 29 := by decide

/-- Claim C3 (amended): `progress_percentage` is the truncation of the
binary64 evaluation of `(completed / total) * 100`, which can fall
short of the exact floor of `100 * completed / total` (e.g. 28 instead
of 29 at 29/100); it does equal 0 when `total = 0` and 100 at full
completion. -/
theorem c3_percentage_amended (completed total : Nat) :
    (total = 0 → progress_percentage completed total = 0) ∧
    (completed = total → total ≠ 0 → progress_percentage completed total = 100) := by
  constructor
  · intro h
    simp [progress_percentage, h]
  · intro hct ht
    rw [hct]
    exact progress_percentage_self total ht

/-- Witness for `c3_percentage_amended` at `total = 0` and at `5/5`. -/
theorem c3_percentage_amended_witness :
    progress_percentage 0 0 = 0 ∧ progress_percentage 5 5 = 100 :=
  ⟨(c3_percentage_amended 0 0).1 rfl, (c3_percentage_amended 5 5).2 rfl (by decide)⟩

/- ======================= Claim C8 ======================= -/

/-- Claim C8: `update_student_progress` is idempotent — calling it
twice with `completed = true` yields the same `get_student_progress`
dictionary as calling it once (here even the same store). -/
theorem c8_set_completed_idempotent (db : LearnDB) (student unit : Nat) (item : Int) :
    get_student_progress (.ok (progressQuery
        (update_student_progress
          (update_student_progress db student unit item true).1
          student unit item true).1 student unit))
      = get_student_progress (.ok (progressQuery
          (update_student_progress db student unit item true).1 student unit)) := by
  rw [update_student_progress_idem]

/- ======================= Claim C9 ======================= -/

/-- Claim C9 counterexample: a persistence failure inside
`get_student_progress`, `get_unit_chapters` or `get_exam_questions`
is caught and mapped to the empty dictionary/list — byte-for-byte the
value a successful query over no rows returns — so no explicit error
result reaches the caller; the failure is silently swallowed (only
printed), contrary to the claimed propagation policy. -/
theorem c9_errors_swallowed :
    get_student_progress (.error "connection refused") = get_student_progress (.ok []) ∧
    get_unit_chapters (.error "connection refused") = get_unit_chapters (.ok []) ∧
    get_exam_questions (.error "connection refused") = get_exam_questions (.ok []) :=
  ⟨rfl, rfl, rfl⟩

/-- Claim C9 (amended): the three cited readers catch any persistence
failure and return empty defaults (`{}` / `[]`), indistinguishable
from a successful empty result; errors are logged, not returned. -/
theorem c9_errors_amended (e : String) :
    get_student_progress (.error e) = [] ∧
    get_unit_chapters (.error e) = [] ∧
    get_exam_questions (.error e) = [] :=
  ⟨rfl, rfl, rfl⟩

/- ======================= Claim C10 ======================= -/

/-- Claim C10: the post-submission step that should mark the exam item
complete never succeeds: `get_exam_by_unit`'s dictionary has no
`item_id` key, the `exam['item_id']` lookup in `exam_submit` raises,
the exception is caught and printed, and the `student_progress` store
is left exactly as it was by every exam submission. -/
theorem c10_exam_submit_never_marks_progress (db : LearnDB) (sess : Session)
    (unitId : Nat) (form : List (String × String)) (e : ExamRow) :
    (exam_submit db sess unitId form).1.progress = db.progress ∧
    (examDict e).lookup "item_id" = none := by
  refine ⟨?_, examDict_lookup_item_id e⟩
  unfold exam_submit
  split
  · split
    · rfl
    · split
      · rfl
      · rename_i exam _
        simp only [examDict_lookup_item_id]
        rw [save_exam_attempt_and_score]
        split <;> rfl
  · rfl

/- ======================= Claim C1 ======================= -/

/-- Claim C1 counterexample (Scenario C): the exam of `scenarioCDB` has
two 5-point `mcq` questions with correct options `A` and `B`; the
student submits answers `A` and `C`, and the grader returns
`(50, 100)`, not the claimed `(5, 10)`: `save_exam_attempt_and_score`
hardcodes `score = 50; total_marks = 100` and never reads the
questions or the submitted answers. -/
theorem c1_grading_scenarioC_refuted :
    (save_exam_attempt_and_score scenarioCDB 1 7 [("1", "A"), ("2", "C")]).2 = (50, 100) ∧
    ((50 : Nat), (100 : Nat)) ≠ ((5 : Nat), (10 : Nat)) := by decide

/-- Claim C1 (amended): no per-question grading exists.  The grader
ignores the submitted answers and the stored questions: any successful
submission returns `(50, 100)` (and any two submissions the same
value); a failed insert returns `(0, 100)`. -/
theorem c1_grading_amended (db : LearnDB) (examId studentId : Nat)
    (answers answers' : List (String × String)) (h : db.insertFails = false) :
    (save_exam_attempt_and_score db examId studentId answers).2 = (50, 100) ∧
    (save_exam_attempt_and_score db examId studentId answers).2
      = (save_exam_attempt_and_score db examId studentId answers').2 := by
  simp [save_exam_attempt_and_score, h]

/-- Witness for `c1_grading_amended` on the Scenario C store. -/
theorem c1_grading_amended_witness :
    (save_exam_attempt_and_score scenarioCDB 1 7 [("1", "A"), ("2", "C")]).2 = (50, 100) :=
  (c1_grading_amended scenarioCDB 1 7 [("1", "A"), ("2", "C")] [] (by decide)).1

/- ======================= Claim C4 ======================= -/

/-- Claim C4 counterexample: when persisting the attempt fails, the
submission does NOT report the error: it renders the same normal
result page a successful submission renders, just with score 0 —
`save_exam_attempt_and_score` catches the exception and returns
`(0, 100)`, and `exam_submit` has no failure branch at all (compare
the healthy run, which differs only in the displayed numbers). -/
theorem c4_failure_not_reported :
    exam_submit scenarioCDBFail studentSess 1 [("q_1", "A"), ("q_2", "C")]
      = (scenarioCDBFail, .resultPage 0 100) ∧
    (exam_submit scenarioCDB studentSess 1 [("q_1", "A"), ("q_2", "C")]).2
      = .resultPage 50 100 := by decide

/-- Claim C4 (amended): on persistence failure the error is swallowed:
the route leaves the store untouched and renders an ordinary result
page (`(0, 100)` when it gets as far as grading), with no
error-reporting outcome; the exam item is (vacuously) not marked
complete — the marking step never succeeds on any path since the exam
dictionary lacks `item_id`.  The persist-then-mark order does hold in
the code. -/
theorem c4_failure_amended (db : LearnDB) (sess : Session) (unitId : Nat)
    (form : List (String × String)) (hfail : db.insertFails = true) :
    (exam_submit db sess unitId form).1 = db ∧
    ((exam_submit db sess unitId form).2 = SubmitOutcome.loginRedirect ∨
     (exam_submit db sess unitId form).2 = SubmitOutcome.unavailableRedirect ∨
     (exam_submit db sess unitId form).2 = SubmitOutcome.resultPage 0 100) := by
  unfold exam_submit
  split
  · split
    · exact ⟨rfl, Or.inr (Or.inl rfl)⟩
    · split
      · exact ⟨rfl, Or.inr (Or.inl rfl)⟩
      · rename_i exam _
        simp only [examDict_lookup_item_id]
        rw [save_exam_attempt_and_score]
        rw [if_pos hfail]
        exact ⟨rfl, Or.inr (Or.inr rfl)⟩
  · exact ⟨rfl, Or.inl rfl⟩

/-- Witness for `c4_failure_amended` on the failing Scenario C store. -/
theorem c4_failure_amended_witness :
    (exam_submit scenarioCDBFail studentSess 1 []).1 = scenarioCDBFail :=
  (c4_failure_amended scenarioCDBFail studentSess 1 [] (by decide)).1

/- ======================= Claim C5 ======================= -/

/-- Claim C5 counterexample: submitting the same exam twice as the same
student leaves two attempt rows for `(exam 1, student 7)` — the insert
is a plain `INSERT` and `exam_attempts` has no uniqueness constraint
on `(exam_id, student_id)`, so nothing overwrites. -/
theorem c5_resubmission_duplicates :
    ((save_exam_attempt_and_score
        (save_exam_attempt_and_score scenarioCDB 1 7 [("1", "A")]).1
        1 7 [("1", "B")]).1.attempts.filter
      (fun a => a.examId == 1 && a.studentId == 7)).length = 2 := by decide

/-- Claim C5 (amended): every successful submission appends a fresh
attempt row; a resubmission therefore duplicates rather than
overwrites the `(exam, student)` attempt. -/
theorem c5_insert_appends (db : LearnDB) (examId studentId : Nat)
    (a1 a2 : List (String × String)) (h : db.insertFails = false) :
    (save_exam_attempt_and_score
        (save_exam_attempt_and_score db examId studentId a1).1
        examId studentId a2).1.attempts
      = db.attempts ++ [⟨examId, studentId, 50, "submitted", a1⟩,
                        ⟨examId, studentId, 50, "submitted", a2⟩] := by
  simp [save_exam_attempt_and_score, h]

/-- Witness for `c5_insert_appends` on the Scenario C store. -/
theorem c5_insert_appends_witness :
    (save_exam_attempt_and_score
        (save_exam_attempt_and_score scenarioCDB 1 7 []).1 1 7 []).1.attempts
      = [⟨1, 7, 50, "submitted", []⟩, ⟨1, 7, 50, "submitted", []⟩] := by
  rw [c5_insert_appends scenarioCDB 1 7 [] [] rfl]
  rfl

/- ======================= Claim C6 ======================= -/

/-- Claim C6 counterexample: `api_create_exam` performs no
content-threshold check.  On `thinUnitDB` — whose unit 1 has only 3
chapters and 3 lessons, below the claimed minimum of 10 — it reports
success and leaves an Exam row and an Item row, instead of failing
with a precondition error and creating nothing. -/
theorem c6_api_creates_below_threshold :
    (thinUnitDB.chapters.filter (fun c => c.unitId == 1)).length = 3 ∧
    count_lessons_in_unit thinUnitDB 1 = 3 ∧
    (api_create_exam thinUnitDB lecturerSess 1 "Final" "" 60 100 []).2
      = ApiOutcome.okCreated 1 ∧
    (api_create_exam thinUnitDB lecturerSess 1 "Final" "" 60 100 []).1.exams.length = 1 ∧
    (api_create_exam thinUnitDB lecturerSess 1 "Final" "" 60 100 []).1.examItems.length = 1 := by
  decide

/-- Claim C6 (amended): only the form route `exam_create` enforces a
threshold (≥ 10 rows in the `lessons` table): below it, the POST
redirects with a warning and writes nothing.  The API route
`api_create_exam` checks nothing and creates the exam regardless of
content.  (The 10-chapter count at `app.py:1022-1024` only renders a
flag on the add-exam page.) -/
theorem c6_creation_amended (db : LearnDB) (sess : Session) (unitId : Nat)
    (title instructions : String) (duration totalMarks : Int) (qs : List QuestionRow)
    (hauth : isStaffSession sess = true) :
    (count_lessons_in_unit db unitId < 10 → db.units.contains unitId = true →
      exam_create db sess unitId title instructions duration totalMarks qs
        = (db, CreateOutcome.preconditionRedirect)) ∧
    (api_create_exam db sess unitId title instructions duration totalMarks qs).1.exams.length
      = db.exams.length + 1 := by
  constructor
  · intro hlt hunit
    have hm : unitId ∈ db.units := by simpa using hunit
    rw [exam_create]
    simp [hauth, hm, Nat.not_le.mpr hlt]
  · rw [api_create_exam]
    simp only [hauth, Bool.not_true, Bool.false_eq_true, if_false]
    split
    · simp [add_exam_questions, create_exam]
    · simp [create_exam]

/-- Witness for `c6_creation_amended` on the thin unit. -/
theorem c6_creation_amended_witness :
    exam_create thinUnitDB lecturerSess 1 "Final" "" 60 100 []
      = (thinUnitDB, CreateOutcome.preconditionRedirect) ∧
    (api_create_exam thinUnitDB lecturerSess 1 "Final" "" 60 100 []).1.exams.length = 1 := by
  have h := c6_creation_amended thinUnitDB lecturerSess 1 "Final" "" 60 100 [] (by decide)
  exact ⟨h.1 (by decide) (by decide), by rw [h.2]; rfl⟩

/-- Non-exam item count of the giant chapter. -/
theorem giant_total : landing_total [giantChapter] = 2 ^ 54 := by
  rw [landing_total, List.flatMap_cons, List.flatMap_nil, List.append_nil]
  show (List.replicate (2 ^ 54 - 1) lessonDone ++ [lessonTodo]).countP _ = 2 ^ 54
  rw [List.countP_append, countP_replicate]
  rw [if_pos (show (!(lessonDone.type == "exam")) = true from rfl)]
  rw [show ([lessonTodo].countP fun (it : Item) => !(it.type == "exam")) = 1 from rfl]
  have h : (1 : Nat) ≤ 2 ^ 54 := Nat.one_le_two_pow
  omega

/-- Completed non-exam item count of the giant chapter. -/
theorem giant_done : landing_done giantPM [giantChapter] = 2 ^ 54 - 1 := by
  rw [landing_done, List.flatMap_cons, List.flatMap_nil, List.append_nil]
  show (List.replicate (2 ^ 54 - 1) lessonDone ++ [lessonTodo]).countP _ = 2 ^ 54 - 1
  rw [List.countP_append, countP_replicate]
  rw [if_pos (show (!(lessonDone.type == "exam") && pmGet giantPM lessonDone.id) = true
        from rfl)]
  rw [show ([lessonTodo].countP
        fun (it : Item) => !(it.type == "exam") && pmGet giantPM it.id) = 0 from rfl]
  omega

/- ======================= Claim C2 ======================= -/

/-- Claim C2 counterexample: with `2^54 - 1` of `2^54` items complete,
the ratio rounds to exactly `1.0` in binary64, so the computed
`progress_percentage` is 100 — yet `exam_landing` keeps the exam
locked (it compares `done == total`, which fails), falsifying
"unlocked iff percentage = 100"; `learning_interface`, which compares
the percentage itself, simultaneously reports the exam unlocked. -/
theorem c2_exact100_gate_refuted :
    learn_progress_percentage giantPM [giantChapter] = 100 ∧
    landing_unlocked giantPM [giantChapter] = false ∧
    learn_exam_unlocked true giantPM [giantChapter] = true ∧
    ¬(landing_unlocked giantPM [giantChapter] = true ↔
        learn_progress_percentage giantPM [giantChapter] = 100) := by
  have hp : learn_progress_percentage giantPM [giantChapter] = 100 := by
    rw [learn_progress_percentage, learnStats_eq]
    dsimp only
    rw [giant_done, giant_total]
    decide
  have hu : landing_unlocked giantPM [giantChapter] = false := by
    rw [landing_unlocked, giant_done, giant_total]
    decide
  refine ⟨hp, hu, ?_, ?_⟩
  · rw [learn_exam_unlocked, hp]
    rfl
  · intro hiff
    rw [hu] at hiff
    exact absurd (hiff.mpr hp) (by decide)

/-- Claim C2 (amended): `learning_interface` unlocks exactly when the
viewer is a student and the computed percentage is 100, and a unit
with `total_items = 0` never unlocks at either site; `exam_landing`
however unlocks exactly when `0 < total ∧ done = total`, which implies
percentage = 100 but is not implied by it under the code's binary64
arithmetic (see the counterexample). -/
theorem c2_gate_amended (isStudent : Bool) (pm : PMap) (chapters : List ChapterView) :
    (learn_exam_unlocked isStudent pm chapters = true ↔
      isStudent = true ∧ learn_progress_percentage pm chapters = 100) ∧
    (landing_unlocked pm chapters = true ↔
      0 < landing_total chapters ∧ landing_done pm chapters = landing_total chapters) ∧
    ((learnStats pm chapters).totalItems = 0 →
      learn_exam_unlocked isStudent pm chapters = false ∧
      landing_unlocked pm chapters = false) ∧
    (landing_unlocked pm chapters = true → learn_progress_percentage pm chapters = 100) := by
  have hlp : learn_progress_percentage pm chapters
      = progress_percentage (landing_done pm chapters) (landing_total chapters) := by
    rw [learn_progress_percentage, learnStats_eq]
  refine ⟨?_, ?_, ?_, ?_⟩
  · simp [learn_exam_unlocked, Bool.and_eq_true]
  · simp [landing_unlocked, Bool.and_eq_true]
  · intro h0
    have htot : landing_total chapters = 0 := by
      rw [learnStats_eq] at h0
      exact h0
    constructor
    · rw [learn_exam_unlocked, hlp, htot]
      simp [progress_percentage]
    · rw [landing_unlocked, htot]
      simp
  · intro hu
    rw [landing_unlocked, Bool.and_eq_true] at hu
    obtain ⟨h1, h2⟩ := hu
    have htpos : 0 < landing_total chapters := by simpa using h1
    have hde : landing_done pm chapters = landing_total chapters := by simpa using h2
    rw [hlp, hde]
    exact progress_percentage_self _ (Nat.pos_iff_ne_zero.mp htpos)

/-- Witness for `c2_gate_amended`: an empty unit never unlocks, and a
fully completed one-lesson unit reaches percentage 100. -/
theorem c2_gate_amended_witness :
    learn_exam_unlocked true [] [] = false ∧ landing_unlocked [] [] = false ∧
    learn_progress_percentage [(1, true)] [⟨1, [lessonDone]⟩] = 100 := by
  have h1 := (c2_gate_amended true [] []).2.2.1 (by decide)
  have h2 := (c2_gate_amended true [(1, true)] [⟨1, [lessonDone]⟩]).2.2.2 (by decide)
  exact ⟨h1.1, h1.2, h2⟩

/- ======================= Claim C7 ======================= -/

/-- Claim C7 counterexample: a chapter whose single item is an
uncompleted exam item.  The loop skips exam items when checking
chapter completion, so `completed_chapters = 1`, while under the
claim's wording — every item of every type completed — the count is 0. -/
theorem c7_completed_chapters_refuted :
    (learnStats [] [examOnlyChapter]).completedChapters = 1 ∧
    claimCompletedChapters [] [examOnlyChapter] = 0 := by decide

/-- Claim C7 (amended): `completed_chapters` counts the chapters with
at least one item in which every NON-exam item is completed; exam
items are ignored by the completion check (so a chapter holding only
exam items counts), and a zero-item chapter is never counted. -/
theorem c7_completed_chapters_amended (pm : PMap) (chapters : List ChapterView) :
    (learnStats pm chapters).completedChapters
      = chapters.countP (fun ch =>
          ch.items.all (fun it => (it.type == "exam") || pmGet pm it.id)
            && !ch.items.isEmpty) := by
  rw [learnStats_eq]
  rfl

end Portal
